import Mathlib

/-!
Shallow embedding of the core of the `care_whatsapp_bot` repository:
the conversation engine (`bot_engine/im_bot_service.py`), the session
manager (`bot_engine/session_manager.py`, `core/models.py`), the token
manager (`utils/token_manager.py`) and the rate limiter
(`utils/rate_limiter.py`).

Modelling conventions:
* Python strings are Lean `String`; the Python string operations used by
  the code (`lower`, `strip`, `split`, `startswith`, `in`, slicing) are
  re-implemented structurally over `String.data` so that the kernel can
  evaluate them.
* Django model timestamps (`last_activity`) and the engine clock are
  integers (seconds); the bot logic only ever subtracts and compares
  them.  `time.time()` inside the rate limiter and the token manager is
  a rational (it is divided and multiplied by non-integers there).
* The backend API client and the token oracles are an explicit
  environment: a Python call that may raise becomes `Except Unit _`
  (`Except.error ()` is a raised exception), caught by pattern matching
  exactly where the source has `try/except`.
* Reply strings are represented by an inductive `Reply` with one
  constructor per distinct literal reply in the source (data formatted
  into a reply is carried as constructor arguments); the engine also
  returns the list of backend calls it performed, in order.
-/

/-! ### Python string primitives, structurally over `List Char` -/

/-- Python `str.lower` (the engine only lowercases ASCII command words). -/
def pyLower (s : String) : String := ⟨s.data.map Char.toLower⟩

/-- Drop leading whitespace characters from a character list. -/
def dropLeadingWs : List Char → List Char
  | [] => []
  | c :: cs => if c.isWhitespace then dropLeadingWs cs else c :: cs

/-- Python `str.strip()`: remove leading and trailing whitespace. -/
def pyStrip (s : String) : String :=
  ⟨List.reverse (dropLeadingWs (List.reverse (dropLeadingWs s.data)))⟩

/-- `matchesAt p s`: whether `s` starts with the pattern `p` (pattern
first, so that an empty pattern answers without inspecting `s`). -/
def matchesAt : List Char → List Char → Bool
  | [], _ => true
  | _ :: _, [] => false
  | d :: ds, c :: cs => d == c && matchesAt ds cs

/-- Whether the first list starts with the second. -/
def listStartsWith (s p : List Char) : Bool := matchesAt p s

/-- Python `str.startswith`. -/
def pyStartsWith (s p : String) : Bool := listStartsWith s.data p.data

/-- Whether the first list contains the second as a contiguous sublist. -/
def listContainsSub : List Char → List Char → Bool
  | [], sub => sub.isEmpty
  | c :: cs, sub => listStartsWith (c :: cs) sub || listContainsSub cs sub

/-- Python `sub in s` on strings. -/
def pyContains (s sub : String) : Bool := listContainsSub s.data sub.data

/-- Python `c in s` for a single character. -/
def pyContainsChar (s : String) (c : Char) : Bool := s.data.contains c

/-- Split a character list at the first `:`.  `none` when there is no
colon (Python `split(":", 1)` then returns a one-element list and tuple
unpacking raises `ValueError`). -/
def splitAtColon : List Char → Option (List Char × List Char)
  | [] => none
  | c :: cs =>
    if c = ':' then some ([], cs)
    else
      match splitAtColon cs with
      | some p => some (c :: p.1, p.2)
      | none => none

/-- Python `s.split(":", 1)` restricted to the case used by the code
(tuple unpacking into exactly two parts). -/
def pySplitColonOnce (s : String) : Option (String × String) :=
  (splitAtColon s.data).map (fun p => (⟨p.1⟩, ⟨p.2⟩))

/-- Chunks of a character list between whitespace characters (possibly
empty chunks at runs of whitespace). -/
def wsChunks : List Char → List (List Char)
  | [] => [[]]
  | c :: cs =>
    if c.isWhitespace then [] :: wsChunks cs
    else
      match wsChunks cs with
      | [] => [[c]]
      | g :: gs => (c :: g) :: gs

/-- Python `str.split()` with no argument: split on whitespace runs and
drop empty fields. -/
def pySplitWs (s : String) : List String :=
  ((wsChunks s.data).filter (fun l => !l.isEmpty)).map (fun l => ⟨l⟩)

/-- Python `" ".join(parts)`. -/
def pyJoinSpace : List String → String
  | [] => ""
  | [x] => x
  | x :: xs => x ++ " " ++ pyJoinSpace xs

/-- Python slicing `s[n:]`. -/
def pyDrop (s : String) (n : Nat) : String := ⟨s.data.drop n⟩

/-- Lookup in the JSON-dict `session_data`, modelled as an association
list (first binding wins, as `setKey` keeps keys unique). -/
def lookupKey : List (String × String) → String → Option String
  | [], _ => none
  | (k, v) :: rest, key => if k == key then some v else lookupKey rest key

/-- Python `d[k] = v` on the `session_data` dict. -/
def setKey : List (String × String) → String → String → List (String × String)
  | [], k, v => [(k, v)]
  | (k0, v0) :: rest, k, v =>
    if k0 == k then (k, v) :: rest else (k0, v0) :: setKey rest k v

/-- Python truthiness of an optional string column (`None` and `""` are
falsy). -/
def optTruthy : Option String → Bool
  | none => false
  | some t => t != ""

/-! ### Rate limiter (`utils/rate_limiter.py`) -/

/-- The token bucket of `class RateLimiter`. -/
structure RateLimiter where
  refill_rate : ℚ
  bucket_size : ℚ
  tokens : ℚ
  last_refill : ℚ
deriving DecidableEq

/-- `RateLimiter.__init__`: starts with a full bucket at construction
time `now`. -/
def RateLimiter.init (refill_rate : ℚ) (bucket_size : ℚ) (now : ℚ) : RateLimiter :=
  { refill_rate := refill_rate, bucket_size := bucket_size,
    tokens := bucket_size, last_refill := now }

/-- `RateLimiter._refill` at clock value `now`. -/
def RateLimiter.refill (b : RateLimiter) (now : ℚ) : RateLimiter :=
  { b with
    tokens := min b.bucket_size (b.tokens + (now - b.last_refill) * b.refill_rate),
    last_refill := now }

/-- `RateLimiter.consume`: refill, then deduct if enough tokens. -/
def RateLimiter.consume (b : RateLimiter) (now : ℚ) (n : ℚ) : Bool × RateLimiter :=
  let b1 := b.refill now
  if n ≤ b1.tokens then (true, { b1 with tokens := b1.tokens - n })
  else (false, b1)

/-- `RateLimiter.wait_for_tokens`: refill; consume and return `0` when
possible, otherwise sleep `(n - tokens) / refill_rate` seconds, zero the
bucket and return the wait.  The clock after the sleep is
`now + wait`. -/
def RateLimiter.waitForTokens (b : RateLimiter) (now : ℚ) (n : ℚ) : ℚ × RateLimiter :=
  let b1 := b.refill now
  if n ≤ b1.tokens then (0, { b1 with tokens := b1.tokens - n })
  else
    let needed := n - b1.tokens
    let wait := needed / b.refill_rate
    (wait, { b1 with tokens := 0, last_refill := now + wait })

/-- One call in a `consume`/`wait_for_tokens` call sequence. -/
inductive RLOp where
  | consume (now : ℚ) (n : ℚ)
  | wait (now : ℚ) (n : ℚ)
deriving DecidableEq

/-- The clock value at which the call is made. -/
def RLOp.now : RLOp → ℚ
  | .consume t _ => t
  | .wait t _ => t

/-- The requested token amount of the call. -/
def RLOp.amount : RLOp → ℚ
  | .consume _ n => n
  | .wait _ n => n

/-- Bucket state after one call. -/
def RLstep (b : RateLimiter) : RLOp → RateLimiter
  | .consume now n => (b.consume now n).2
  | .wait now n => (b.waitForTokens now n).2

/-- Bucket state after a sequence of calls. -/
def RLrun (b : RateLimiter) : List RLOp → RateLimiter
  | [] => b
  | op :: rest => RLrun (RLstep b op) rest

/-- A call sequence is valid when every requested amount is non-negative
and the (monotone) clock never runs backwards past the bucket's
`last_refill`. -/
def validSeq (b : RateLimiter) : List RLOp → Bool
  | [] => true
  | op :: rest =>
    decide (0 ≤ op.amount) && decide (b.last_refill ≤ op.now) &&
      validSeq (RLstep b op) rest

/-- The bucket bound invariant of the spec, plus non-negativity of the
fixed configuration fields. -/
abbrev BucketGood (b : RateLimiter) : Prop :=
  0 ≤ b.refill_rate ∧ 0 ≤ b.bucket_size ∧ 0 ≤ b.tokens ∧ b.tokens ≤ b.bucket_size

/-- The module-level `_rate_limiters` dict (constructed at import time,
modelled at clock 0). -/
def rateLimiters : List (String × RateLimiter) :=
  [("whatsapp_send", RateLimiter.init 5 10 0),
   ("whatsapp_read", RateLimiter.init 10 20 0),
   ("care_api", RateLimiter.init 2 5 0)]

/-- The dict lookup `_rate_limiters.get(limiter_key)`. -/
def lookupRL : List (String × RateLimiter) → String → Option RateLimiter
  | [], _ => none
  | (k, v) :: rest, key => if k == key then some v else lookupRL rest key

/-- Write back the updated bucket under its key. -/
def setRL : List (String × RateLimiter) → String → RateLimiter → List (String × RateLimiter)
  | [], k, v => [(k, v)]
  | (k0, v0) :: rest, k, v =>
    if k0 == k then (k, v) :: rest else (k0, v0) :: setRL rest k v

/-- The `rate_limited(limiter_key)` decorator around one call at clock
`now`: look the key up in `_rate_limiters`; when absent, bypass limiting
and perform the call (fail open); when present, `wait_for_tokens` on the
bucket.  Returns the updated bucket table and the reported wait. -/
def rateLimitedAcquire (store : List (String × RateLimiter)) (key : String)
    (now : ℚ) (n : ℚ) : List (String × RateLimiter) × ℚ :=
  match lookupRL store key with
  | none => (store, 0)
  | some b =>
    let r := b.waitForTokens now n
    (setRL store key r.2, r.1)

/-- The decorator key on `WhatsAppClient.mark_message_as_read`
(`whatsapp_bot/client.py` line 116). -/
def markReadLimiterKey : String := "whatsapp_status"

/-- The decorator key on `send_message`, `send_template_message` and
`send_interactive_message`. -/
def sendLimiterKey : String := "whatsapp_send"

/-! ### Token manager (`utils/token_manager.py`) -/

/-- `int(time.time() * 1000)`, the `jti` value.  The clock is
non-negative, so Python `int()` truncation agrees with the floor. -/
def jtiMillis (t : ℚ) : ℤ := ⌊t * 1000⌋

/-- The JWT payload built by `TokenManager.generate_token` /
`refresh_token` (the HS256 signing of the payload is opaque to the bot
logic and is not modelled). -/
structure TokenClaim where
  user_id : String
  user_type : String
  exp : ℚ
  iat : ℚ
  jti : ℤ
deriving DecidableEq

/-- `TokenManager.generate_token` at clock `now` (seconds). -/
def generateToken (now : ℚ) (user_id user_type : String) (expiry_minutes : ℚ) : TokenClaim :=
  { user_id := user_id, user_type := user_type,
    exp := now + expiry_minutes * 60, iat := now, jti := jtiMillis now }

/-- `TokenManager.refresh_token` at clock `now`, on an already validated
claim: same subject and role, new `exp`, `iat` and `jti`. -/
def refreshClaim (now : ℚ) (c : TokenClaim) (extend_minutes : ℚ) : TokenClaim :=
  { c with exp := now + extend_minutes * 60, iat := now, jti := jtiMillis now }

/-! ### Session model (`core/models.py`) and environment -/

/-- The `UserSession` row for one WhatsApp identity.  `session_data` is
the JSON dict; `last_activity` is in integer seconds (Django updates it
on every `save()` via `auto_now`). -/
structure Session where
  current_state : String
  user_type : String
  session_data : List (String × String)
  is_authenticated : Bool
  auth_token : Option String
  last_activity : ℤ
deriving DecidableEq

/-- The row defaults used by `get_or_create` for an unseen identity. -/
def freshSession (now : ℤ) : Session :=
  { current_state := "new", user_type := "unknown", session_data := [],
    is_authenticated := false, auth_token := none, last_activity := now }

/-- Result dict of `authenticate_patient` / `authenticate_staff`
(`dict.get` defaults are applied at the use site). -/
structure AuthResult where
  authenticated : Bool
  name : Option String
  role : Option String
  token : Option String
deriving DecidableEq

/-- Result dict of `send_patient_notification`. -/
structure NotifyResult where
  success : Bool
  error : Option String
deriving DecidableEq

/-- The environment of one processed inbound event: the clock and the
external collaborators (token oracle, CARE backend client).  A call that
raises an exception in Python is `Except.error ()`. -/
structure BotEnv where
  now : ℤ
  tokenExpired : String → Bool
  refreshToken : String → Option String
  genToken : String → String → String
  authPatient : String → Except Unit AuthResult
  authStaff : String → String → Except Unit AuthResult
  getRecords : String → String → Except Unit (List String)
  getMedications : String → String → Except Unit (List String)
  getProcedures : String → String → Except Unit (List String)
  getAppointments : String → String → Except Unit (List String)
  searchPatient : String → String → Except Unit (Option String)
  notifyPatient : String → String → String → Except Unit NotifyResult
  getRecentPatients : String → Except Unit (List String)

/-- `UserSession.is_session_expired(timeout_minutes=30)`. -/
def isSessionExpired (s : Session) (now : ℤ) : Bool :=
  decide (now - s.last_activity > 30 * 60)

/-- `UserSession.clear_session` (followed by `save()`, which refreshes
`last_activity`). -/
def clearSession (env : BotEnv) (s : Session) : Session :=
  { s with
    current_state := "new"
    session_data := []
    is_authenticated := false
    auth_token := none
    last_activity := env.now }

/-! ### Session manager (`bot_engine/session_manager.py`) -/

/-- `SessionManager.get_or_create_session` on an existing row: reset the
session in place when it is inactivity-expired, or when it carries a
token that the token manager reports expired; otherwise return it
unchanged.  (No token refresh happens here.) -/
def getOrCreateSession (env : BotEnv) (s : Session) : Session :=
  if isSessionExpired s env.now then clearSession env s
  else if (match s.auth_token with
           | some t => t != "" && env.tokenExpired t
           | none => false) then clearSession env s
  else s

/-- `SessionManager.update_session_state` (the engine always passes
`data=None`, so only `current_state` and `last_activity` change). -/
def updateSessionState (env : BotEnv) (s : Session) (newState : String) : Session :=
  let s1 := getOrCreateSession env s
  { s1 with current_state := newState, last_activity := env.now }

/-- `SessionManager.authenticate_user`: generate a token if the caller
passed a falsy one, then set `user_type`, `is_authenticated`,
`auth_token` and store `user_id` in `session_data`. -/
def authenticateUser (env : BotEnv) (s : Session) (userType userId token : String) : Session :=
  let tok := if token == "" then env.genToken userId userType else token
  let s1 := getOrCreateSession env s
  { s1 with
    user_type := userType
    is_authenticated := true
    auth_token := some tok
    session_data := setKey s1.session_data "user_id" userId
    last_activity := env.now }

/-- `SessionManager.logout_user`: deauthenticate, drop the token, reset
the state to `new` (leaving `user_type` and `session_data` in place). -/
def logoutUser (env : BotEnv) (s : Session) : Session :=
  let s1 := getOrCreateSession env s
  { s1 with
    is_authenticated := false
    auth_token := none
    current_state := "new"
    last_activity := env.now }

/-- `SessionManager.clear_session`. -/
def clearSessionMgr (env : BotEnv) (s : Session) : Session :=
  clearSession env (getOrCreateSession env s)

/-- `SessionManager.get_session_data` (with `key=None`): read the
session; when it carries a token that is not expired, attempt a sliding
refresh and persist the refreshed token; return the session data. -/
def getSessionData (env : BotEnv) (s : Session) : Session × List (String × String) :=
  let s1 := getOrCreateSession env s
  let s2 :=
    match s1.auth_token with
    | none => s1
    | some t =>
      if t != "" && !env.tokenExpired t then
        match env.refreshToken t with
        | some t2 => { s1 with auth_token := some t2, last_activity := env.now }
        | none => s1
      else s1
  (s2, s2.session_data)

/-! ### Replies and backend-call traces of the engine
(`bot_engine/im_bot_service.py`) -/

/-- One constructor per distinct reply literal of `IMBotService`;
formatted-in data is carried as arguments. -/
inductive Reply where
  | unsupportedType
  | interactiveNotHandled
  | buttonFallback
  | welcome
  | patientIdPrompt
  | staffCredPrompt
  | roleHelp
  | chooseRolePrompt
  | invalidPatientId
  | patientAuthFailed
  | patientAuthSuccess (name : String)
  | invalidStaffCreds
  | invalidStaffCredsCheck
  | invalidStaffFormat
  | staffAuthFailed
  | staffAuthSuccess (name role : String)
  | authServiceUnavailable
  | sessionNotRecognized
  | sessionExpiredReply
  | noRecords
  | recordsListing (records : List String)
  | noMedications
  | medicationsListing (meds : List String)
  | noProcedures
  | proceduresListing (procs : List String)
  | noAppointments
  | appointmentsListing (appts : List String)
  | patientHelp
  | commandNotRecognized
  | processingError
  | patientNotFound (pid : String)
  | patientFound (pid info : String)
  | notifySent (pid msg : String)
  | notifyFailed (err : String)
  | notifyUsageError
  | noRecentPatients
  | recentPatientsListing (ps : List String)
  | staffHelp
  | logoutConfirmation
  | getStartedFallback
  | unrecognizedSelection
deriving DecidableEq

/-- One backend (CARE API) call performed by the engine, with its
arguments. -/
inductive BCall where
  | authPatient (id : String)
  | authStaff (id password : String)
  | getRecords (id token : String)
  | getMedications (id token : String)
  | getProcedures (id token : String)
  | getAppointments (id token : String)
  | searchPatient (id token : String)
  | notifyPatient (id msg token : String)
  | getRecentPatients (token : String)
deriving DecidableEq

/-- Result of processing one event: the stored session afterwards, the
reply, and the backend calls made (in order). -/
abbrev BotResult := Session × Reply × List BCall

/-! ### The conversation engine (`bot_engine/im_bot_service.py`) -/

/-- `IMBotService._handle_logout`. -/
def handleLogout (env : BotEnv) (s : Session) : BotResult :=
  (logoutUser env s, .logoutConfirmation, [])

/-- `IMBotService._handle_new_user`: note the state literal
`choosing_user_type` written by the source. -/
def handleNewUser (env : BotEnv) (s : Session) : BotResult :=
  (updateSessionState env s "choosing_user_type", .welcome, [])

/-- `IMBotService._handle_user_type_selection`. -/
def handleUserTypeSelection (env : BotEnv) (s : Session) (textContent : String) : BotResult :=
  let textLower := pyStrip (pyLower textContent)
  if pyContains textLower "patient" then
    (updateSessionState env s "patient_auth", .patientIdPrompt, [])
  else if pyContains textLower "staff" then
    (updateSessionState env s "staff_auth", .staffCredPrompt, [])
  else if pyContains textLower "help" then
    (s, .roleHelp, [])
  else
    (s, .chooseRolePrompt, [])

/-- `IMBotService._handle_patient_authentication`. -/
def handlePatientAuthentication (env : BotEnv) (s : Session) (textContent : String) : BotResult :=
  let patientId := pyStrip textContent
  if patientId.length < 5 then (s, .invalidPatientId, [])
  else
    match env.authPatient patientId with
    | .error _ => (s, .authServiceUnavailable, [.authPatient patientId])
    | .ok r =>
      if r.authenticated then
        let authToken := r.token.getD ""
        let patientName := r.name.getD "Patient"
        let s1 := authenticateUser env s "patient" patientId authToken
        let s2 := updateSessionState env s1 "patient_menu"
        (s2, .patientAuthSuccess patientName, [.authPatient patientId])
      else (s, .patientAuthFailed, [.authPatient patientId])

/-- `IMBotService._handle_staff_authentication`. -/
def handleStaffAuthentication (env : BotEnv) (s : Session) (textContent : String) : BotResult :=
  if !pyContainsChar textContent ':' || (pyStrip textContent).length < 8 then
    (s, .invalidStaffCreds, [])
  else
    match pySplitColonOnce (pyStrip textContent) with
    | none => (s, .invalidStaffFormat, [])
    | some (staffId, password) =>
      if staffId == "" || password == "" || password.length < 6 then
        (s, .invalidStaffCredsCheck, [])
      else
        match env.authStaff staffId password with
        | .error _ => (s, .authServiceUnavailable, [.authStaff staffId password])
        | .ok r =>
          if r.authenticated then
            let authToken := r.token.getD ""
            let staffName := r.name.getD "Staff Member"
            let staffRole := r.role.getD "Staff"
            let s1 := authenticateUser env s "staff" staffId authToken
            let s2 := updateSessionState env s1 "staff_menu"
            let s3 := getOrCreateSession env s2
            let s4 := { s3 with
                        session_data :=
                          setKey (setKey s3.session_data "staff_role" staffRole)
                            "staff_name" staffName
                        last_activity := env.now }
            (s4, .staffAuthSuccess staffName staffRole, [.authStaff staffId password])
          else (s, .staffAuthFailed, [.authStaff staffId password])

/-- `IMBotService._handle_patient_commands`. -/
def handlePatientCommands (env : BotEnv) (s : Session) (textContent : String) : BotResult :=
  let t := pyStrip (pyLower textContent)
  let s1 := getOrCreateSession env s
  let patientId := (lookupKey s1.session_data "user_id").getD ""
  let authToken := (s1.auth_token).getD ""
  if patientId == "" || authToken == "" then (s1, .sessionExpiredReply, [])
  else if t == "records" then
    match env.getRecords patientId authToken with
    | .error _ => (s1, .processingError, [.getRecords patientId authToken])
    | .ok rs =>
      (s1, if rs.isEmpty then .noRecords else .recordsListing rs,
        [.getRecords patientId authToken])
  else if t == "medicines" then
    match env.getMedications patientId authToken with
    | .error _ => (s1, .processingError, [.getMedications patientId authToken])
    | .ok ms =>
      (s1, if ms.isEmpty then .noMedications else .medicationsListing ms,
        [.getMedications patientId authToken])
  else if t == "procedures" then
    match env.getProcedures patientId authToken with
    | .error _ => (s1, .processingError, [.getProcedures patientId authToken])
    | .ok ps =>
      (s1, if ps.isEmpty then .noProcedures else .proceduresListing ps,
        [.getProcedures patientId authToken])
  else if t == "appointments" then
    match env.getAppointments patientId authToken with
    | .error _ => (s1, .processingError, [.getAppointments patientId authToken])
    | .ok aps =>
      (s1, if aps.isEmpty then .noAppointments else .appointmentsListing aps,
        [.getAppointments patientId authToken])
  else if t == "help" then (s1, .patientHelp, [])
  else if t == "logout" then handleLogout env s1
  else (s1, .commandNotRecognized, [])

/-- `IMBotService._handle_staff_commands`. -/
def handleStaffCommands (env : BotEnv) (s : Session) (textContent : String) : BotResult :=
  let text := pyStrip textContent
  let lower := pyLower text
  let s1 := getOrCreateSession env s
  let staffId := (lookupKey s1.session_data "user_id").getD ""
  let authToken := (s1.auth_token).getD ""
  if staffId == "" || authToken == "" then (s1, .sessionExpiredReply, [])
  else if pyStartsWith lower "search " then
    let patientId := pyStrip (pyDrop text 7)
    match env.searchPatient patientId authToken with
    | .error _ => (s1, .processingError, [.searchPatient patientId authToken])
    | .ok info =>
      match info with
      | none => (s1, .patientNotFound patientId, [.searchPatient patientId authToken])
      | some i => (s1, .patientFound patientId i, [.searchPatient patientId authToken])
  else if pyStartsWith lower "notify " then
    match pySplitWs text with
    | _ :: patientId :: messageParts =>
      let message := pyJoinSpace messageParts
      match env.notifyPatient patientId message authToken with
      | .error _ => (s1, .notifyUsageError, [.notifyPatient patientId message authToken])
      | .ok r =>
        if r.success then
          (s1, .notifySent patientId message, [.notifyPatient patientId message authToken])
        else
          (s1, .notifyFailed (r.error.getD "Unknown error"),
            [.notifyPatient patientId message authToken])
    | _ => (s1, .notifyUsageError, [])
  else if lower == "patients" then
    match env.getRecentPatients authToken with
    | .error _ => (s1, .processingError, [.getRecentPatients authToken])
    | .ok ps =>
      (s1, if ps.isEmpty then .noRecentPatients else .recentPatientsListing ps,
        [.getRecentPatients authToken])
  else if lower == "help" then (s1, .staffHelp, [])
  else if lower == "logout" then handleLogout env s1
  else (s1, .commandNotRecognized, [])

/-- `IMBotService._handle_authenticated_user`. -/
def handleAuthenticatedUser (env : BotEnv) (s : Session) (textContent : String) : BotResult :=
  let s1 := getOrCreateSession env s
  if s1.user_type == "patient" then handlePatientCommands env s1 textContent
  else if s1.user_type == "staff" then handleStaffCommands env s1 textContent
  else (s1, .sessionNotRecognized, [])

/-- `IMBotService._get_help_message`. -/
def getHelpMessage (env : BotEnv) (s : Session) : BotResult :=
  if !s.is_authenticated then handleUserTypeSelection env s "help"
  else if s.user_type == "patient" then handlePatientCommands env s "help"
  else if s.user_type == "staff" then handleStaffCommands env s "help"
  else (s, .getStartedFallback, [])

/-- `IMBotService._process_text_message`: global commands first, then
dispatch on the stored state. -/
def processTextMessage (env : BotEnv) (s : Session) (textContent : String) : BotResult :=
  let s1 := getOrCreateSession env s
  if pyLower textContent == "logout" then handleLogout env s1
  else if pyLower textContent == "help" then getHelpMessage env s1
  else if pyLower textContent == "restart" then
    handleNewUser env (clearSessionMgr env s1)
  else if s1.current_state == "new" then handleNewUser env s1
  else if s1.current_state == "user_type_selection" then
    handleUserTypeSelection env s1 textContent
  else if s1.current_state == "patient_auth" then
    handlePatientAuthentication env s1 textContent
  else if s1.current_state == "staff_auth" then
    handleStaffAuthentication env s1 textContent
  else handleAuthenticatedUser env s1 textContent

/-- `IMBotService._handle_button_interaction`. -/
def handleButtonInteraction (env : BotEnv) (s : Session) (buttonId : String) : BotResult :=
  if buttonId == "patient_access" then handleUserTypeSelection env s "patient"
  else if buttonId == "staff_access" then handleUserTypeSelection env s "staff"
  else if buttonId == "help_info" then handleUserTypeSelection env s "help"
  else (s, .buttonFallback, [])

/-- `IMBotService._handle_list_interaction`. -/
def handleListInteraction (env : BotEnv) (s : Session) (listId : String) : BotResult :=
  let s1 := getOrCreateSession env s
  let userId := (lookupKey s1.session_data "user_id").getD ""
  let authToken := (s1.auth_token).getD ""
  if userId == "" || authToken == "" then (s1, .sessionExpiredReply, [])
  else if listId == "patient_records" then
    match env.getRecords userId authToken with
    | .error _ => (s1, .processingError, [.getRecords userId authToken])
    | .ok rs =>
      (s1, if rs.isEmpty then .noRecords else .recordsListing rs,
        [.getRecords userId authToken])
  else if listId == "patient_medicines" then
    match env.getMedications userId authToken with
    | .error _ => (s1, .processingError, [.getMedications userId authToken])
    | .ok ms =>
      (s1, if ms.isEmpty then .noMedications else .medicationsListing ms,
        [.getMedications userId authToken])
  else if listId == "patient_procedures" then
    match env.getProcedures userId authToken with
    | .error _ => (s1, .processingError, [.getProcedures userId authToken])
    | .ok ps =>
      (s1, if ps.isEmpty then .noProcedures else .proceduresListing ps,
        [.getProcedures userId authToken])
  else if listId == "patient_appointments" then
    match env.getAppointments userId authToken with
    | .error _ => (s1, .processingError, [.getAppointments userId authToken])
    | .ok aps =>
      (s1, if aps.isEmpty then .noAppointments else .appointmentsListing aps,
        [.getAppointments userId authToken])
  else if listId == "help" then getHelpMessage env s1
  else (s1, .unrecognizedSelection, [])

/-- One inbound webhook event, after JSON envelope parsing. -/
inductive InEvent where
  | text (body : String)
  | interactiveButtonReply (id : String)
  | interactiveListReply (id : String)
  | interactiveOther
  | buttonMsg (textBody : String)
  | otherType
deriving DecidableEq

/-- `IMBotService.process_message`: log the incoming message (whose
`get_or_create_session` may reset an expired session before dispatch),
process by type, then log the outgoing reply (another read). -/
def processMessage (env : BotEnv) (s : Session) (ev : InEvent) : BotResult :=
  let s0 := getOrCreateSession env s
  let r :=
    match ev with
    | .text body => processTextMessage env s0 body
    | .interactiveButtonReply id => handleButtonInteraction env s0 id
    | .interactiveListReply id => handleListInteraction env s0 id
    | .interactiveOther => (s0, .interactiveNotHandled, [])
    | .buttonMsg textBody => processTextMessage env s0 textBody
    | .otherType => (s0, .unsupportedType, [])
  (getOrCreateSession env r.1, r.2.1, r.2.2)

/-! ### Concrete environments and sessions for scenario runs -/

/-- An environment whose every backend call raises (transport failure),
with a healthy token oracle and the clock at 0. -/
def envFail : BotEnv :=
  { now := 0
    tokenExpired := fun _ => false
    refreshToken := fun _ => none
    genToken := fun _ _ => "GEN"
    authPatient := fun _ => .error ()
    authStaff := fun _ _ => .error ()
    getRecords := fun _ _ => .error ()
    getMedications := fun _ _ => .error ()
    getProcedures := fun _ _ => .error ()
    getAppointments := fun _ _ => .error ()
    searchPatient := fun _ _ => .error ()
    notifyPatient := fun _ _ _ => .error ()
    getRecentPatients := fun _ => .error () }

/-- An environment whose backend calls all succeed, with the clock at 0. -/
def envOk : BotEnv :=
  { now := 0
    tokenExpired := fun _ => false
    refreshToken := fun t => some (t ++ "+")
    genToken := fun _ _ => "GEN"
    authPatient := fun _ =>
      .ok { authenticated := true, name := some "Asha", role := none, token := some "T1" }
    authStaff := fun _ _ =>
      .ok { authenticated := true, name := some "Nia", role := some "nurse", token := some "T2" }
    getRecords := fun _ _ => .ok []
    getMedications := fun _ _ => .ok []
    getProcedures := fun _ _ => .ok []
    getAppointments := fun _ _ => .ok []
    searchPatient := fun _ _ => .ok none
    notifyPatient := fun _ _ _ => .ok { success := true, error := none }
    getRecentPatients := fun _ => .ok [] }

/-- An authenticated staff session sitting in the staff menu. -/
def staffSession : Session :=
  { current_state := "staff_menu"
    user_type := "staff"
    session_data := [("user_id", "S1")]
    is_authenticated := true
    auth_token := some "TOK"
    last_activity := 0 }

/-- An unauthenticated session sitting at the patient-ID prompt. -/
def patientAuthSession : Session :=
  { current_state := "patient_auth"
    user_type := "unknown"
    session_data := []
    is_authenticated := false
    auth_token := none
    last_activity := 0 }

/-- An authenticated patient session holding token `T1`, read while
fresh. -/
def refreshSession : Session :=
  { current_state := "patient_menu"
    user_type := "patient"
    session_data := [("user_id", "P1")]
    is_authenticated := true
    auth_token := some "T1"
    last_activity := 0 }

/-- Run a list of `(now, n)` `consume` calls, conjoining the returned
booleans. -/
def allConsume (b : RateLimiter) : List (ℚ × ℚ) → Bool × RateLimiter
  | [] => (true, b)
  | p :: rest =>
    let r := b.consume p.1 p.2
    let q := allConsume r.2 rest
    (r.1 && q.1, q.2)

/-- A character list without a colon. -/
def noColon : List Char → Bool
  | [] => true
  | c :: cs => !(c == ':') && noColon cs

/-- The boundary property of one processed event: if any backend call
was made, the stored session is unchanged and the reply is one of the
three caught-failure replies. -/
def FailSafe (s : Session) (r : BotResult) : Prop :=
  r.2.2 ≠ [] →
    r.1 = s ∧
      (r.2.1 = .authServiceUnavailable ∨ r.2.1 = .processingError ∨
        r.2.1 = .notifyUsageError)

/-! ### General lemmas about the session reads -/

/-- A `get_or_create_session` read either returns the stored row
unchanged or resets it. -/
theorem gc_cases (env : BotEnv) (s : Session) :
    getOrCreateSession env s = s ∨ getOrCreateSession env s = clearSession env s := by
  unfold getOrCreateSession
  split
  · exact Or.inr rfl
  · split
    · exact Or.inr rfl
    · exact Or.inl rfl

/-- A reset row is stable under a further read at the same clock. -/
theorem gc_clear (env : BotEnv) (s : Session) :
    getOrCreateSession env (clearSession env s) = clearSession env s := by
  simp [getOrCreateSession, clearSession, isSessionExpired]

/-- `get_or_create_session` is idempotent within one event (fixed
clock). -/
theorem gc_idem (env : BotEnv) (s : Session) :
    getOrCreateSession env (getOrCreateSession env s) = getOrCreateSession env s := by
  rcases gc_cases env s with h | h
  · rw [h, h]
  · rw [h]
    exact gc_clear env s

/-! ### Claim C8 -/

/-- C8: the claim states that every `mark_message_as_read` call deducts
from a configured rate-limiter bucket before the outbound request, as
the send methods do.  In the code the decorator key is
`whatsapp_status`, which is not a key of `_rate_limiters` (the table
defines `whatsapp_read` for read receipts but it is never used), so the
lookup fails and the call bypasses rate limiting entirely, deducting
from no bucket, while `send_message` under `whatsapp_send` does hit its
bucket. -/
theorem care_c8_mark_read_bypasses_limiter :
    lookupRL rateLimiters markReadLimiterKey = none ∧
    (∀ now n, rateLimitedAcquire rateLimiters markReadLimiterKey now n = (rateLimiters, 0)) ∧
    lookupRL rateLimiters sendLimiterKey = some (RateLimiter.init 5 10 0) :=
  ⟨rfl, fun _ _ => rfl, rfl⟩

/-! ### Claim C7 -/

/-- C7 counterexample: `jti` is `int(time.time() * 1000)`, a pure
function of the clock, so a refresh performed in the same millisecond as
the issue of the token it supersedes carries the same `uniqueId`; the
claim that every pair of successive issue/refresh operations (any times)
yields distinct `jti` is false at clock 0. -/
theorem care_c7_same_millisecond_cex :
    (refreshClaim 0 (generateToken 0 "u1" "patient" 1440) 1440).jti
      = (generateToken 0 "u1" "patient" 1440).jti ∧
    (generateToken 0 "u1" "patient" 1440).jti = (generateToken 0 "u2" "staff" 1440).jti :=
  ⟨rfl, rfl⟩

/-- C7 amended: two issue/refresh operations produce distinct embedded
`jti` values whenever their clock values fall in distinct millisecond
ticks (the `jti` of either operation is exactly the millisecond floor of
its clock). -/
theorem care_c7_jti_distinct (t1 t2 : ℚ) (u1 r1 u2 r2 : String) (e1 e2 m1 m2 : ℚ)
    (c1 c2 : TokenClaim) (h : jtiMillis t1 ≠ jtiMillis t2) :
    (generateToken t1 u1 r1 e1).jti ≠ (generateToken t2 u2 r2 e2).jti ∧
    (generateToken t1 u1 r1 e1).jti ≠ (refreshClaim t2 c2 m2).jti ∧
    (refreshClaim t1 c1 m1).jti ≠ (refreshClaim t2 c2 m2).jti ∧
    (refreshClaim t1 c1 m1).jti ≠ (generateToken t2 u2 r2 e2).jti :=
  ⟨h, h, h, h⟩

/-- C7 witness: clocks 0 and 1 second lie in different millisecond
ticks, so an issue at 0 and an issue at 1 get distinct `jti`. -/
theorem care_c7_witness :
    jtiMillis 0 ≠ jtiMillis 1 ∧
    (generateToken 0 "u" "patient" 1440).jti ≠ (generateToken 1 "u" "patient" 1440).jti := by
  have h : jtiMillis 0 ≠ jtiMillis 1 := by
    simp [jtiMillis]
  exact ⟨h, (care_c7_jti_distinct 0 1 "u" "patient" "u" "patient" 1440 1440 1440 1440
    (generateToken 0 "u" "patient" 1440) (generateToken 1 "u" "patient" 1440) h).1⟩

/-! ### Claim C6 -/

/-- C6 counterexample: on a read that triggers no reset, with a refresh
available (`envOk` refreshes `T1` to `T1+`), `get_or_create_session`
returns the stored session with its token unchanged — no sliding
refresh is attempted there, contradicting the claim that the refresh
happens during the `getOrCreate` read. -/
theorem care_c6_get_or_create_no_refresh_cex :
    envOk.refreshToken "T1" = some "T1+" ∧
    getOrCreateSession envOk refreshSession = refreshSession ∧
    (getOrCreateSession envOk refreshSession).auth_token = some "T1" := by
  refine ⟨rfl, by decide, by decide⟩

/-- C6 amended: the sliding refresh is performed by `get_session_data`,
not by `get_or_create_session`: on a `get_session_data` read whose
inner `getOrCreate` does not reset and whose token is present and not
expired, a successful refresh is written back before the data is
returned; `get_or_create_session` itself either preserves the stored
token verbatim or clears it to `none`, never rewriting it. -/
theorem care_c6_refresh_in_get_session_data (env : BotEnv) (s : Session) (t t2 : String)
    (hg : getOrCreateSession env s = s)
    (htok : s.auth_token = some t) (hne : t ≠ "")
    (hexp : env.tokenExpired t = false)
    (hr : env.refreshToken t = some t2) :
    (getSessionData env s).1.auth_token = some t2 ∧
    (∀ (env2 : BotEnv) (s2 : Session),
      (getOrCreateSession env2 s2).auth_token = s2.auth_token ∨
      (getOrCreateSession env2 s2).auth_token = none) := by
  constructor
  · simp [getSessionData, hg, htok, hne, hexp, hr]
  · intro env2 s2
    unfold getOrCreateSession
    split
    · exact Or.inr rfl
    · split
      · exact Or.inr rfl
      · exact Or.inl rfl

/-- C6 witness: the amended theorem applied to `envOk` and the fresh
authenticated session: `get_session_data` stores the refreshed token
`T1+`. -/
theorem care_c6_witness :
    getOrCreateSession envOk refreshSession = refreshSession ∧
    (getSessionData envOk refreshSession).1.auth_token = some "T1+" :=
  ⟨by decide,
    (care_c6_refresh_in_get_session_data envOk refreshSession "T1" "T1+"
      (by decide) rfl (by decide) rfl rfl).1⟩

/-! ### Claims C3 and C4 (rate limiter) -/

/-- `_refill` preserves the bucket bound when the clock has not run
backwards. -/
theorem refill_good (b : RateLimiter) (now : ℚ)
    (hb : BucketGood b) (h : b.last_refill ≤ now) : BucketGood (b.refill now) := by
  obtain ⟨h1, h2, h3, h4⟩ := hb
  refine ⟨h1, h2, ?_, ?_⟩
  · simp only [RateLimiter.refill]
    refine le_min h2 ?_
    have hm : 0 ≤ (now - b.last_refill) * b.refill_rate :=
      mul_nonneg (by linarith) h1
    linarith
  · simp only [RateLimiter.refill]
    exact min_le_left _ _

/-- One `consume`/`wait_for_tokens` call preserves the bucket bound. -/
theorem step_good (b : RateLimiter) (op : RLOp)
    (hb : BucketGood b) (hn : 0 ≤ op.amount) (ht : b.last_refill ≤ op.now) :
    BucketGood (RLstep b op) := by
  cases op with
  | consume now n =>
    simp only [RLOp.amount] at hn
    simp only [RLOp.now] at ht
    obtain ⟨h1, h2, h3, h4⟩ := refill_good b now hb ht
    simp only [RLstep, RateLimiter.consume]
    split
    · next hc =>
      refine ⟨h1, h2, ?_, ?_⟩
      · show 0 ≤ (b.refill now).tokens - n
        linarith
      · show (b.refill now).tokens - n ≤ (b.refill now).bucket_size
        linarith
    · exact ⟨h1, h2, h3, h4⟩
  | wait now n =>
    simp only [RLOp.amount] at hn
    simp only [RLOp.now] at ht
    obtain ⟨h1, h2, h3, h4⟩ := refill_good b now hb ht
    simp only [RLstep, RateLimiter.waitForTokens]
    split
    · next hc =>
      refine ⟨h1, h2, ?_, ?_⟩
      · show 0 ≤ (b.refill now).tokens - n
        linarith
      · show (b.refill now).tokens - n ≤ (b.refill now).bucket_size
        linarith
    · exact ⟨h1, h2, le_refl 0, h2⟩

/-- C3: starting from any bucket satisfying the bound (in particular
any freshly constructed bucket), every valid `consume`/`wait_for_tokens`
call sequence keeps `0 ≤ tokens ≤ capacity` after every call (every
prefix of the sequence); and a `consume` that returns `False` leaves the
bucket exactly as the refill left it (no deduction). -/
theorem care_c3_bucket_invariant :
    (∀ (b : RateLimiter) (pre suff : List RLOp),
      BucketGood b → validSeq b (pre ++ suff) = true → BucketGood (RLrun b pre)) ∧
    (∀ (b : RateLimiter) (now n : ℚ),
      (b.consume now n).1 = false → (b.consume now n).2 = b.refill now) := by
  constructor
  · intro b pre
    induction pre generalizing b with
    | nil => exact fun _ hb _ => hb
    | cons op rest ih =>
      intro suff hb hv
      simp only [List.cons_append, validSeq, Bool.and_eq_true, decide_eq_true_eq] at hv
      obtain ⟨⟨hn, ht⟩, hv2⟩ := hv
      exact ih (RLstep b op) suff (step_good b op hb hn ht) hv2
  · intro b now n h
    simp only [RateLimiter.consume] at h ⊢
    split at h
    · exact absurd h (by simp)
    · next hc => simp only [if_neg hc]

/-- C3 witness: the `whatsapp_send` bucket configuration with one valid
`consume` call keeps the bound, and a denied `consume` on an empty
zero-capacity bucket leaves the refilled state unchanged. -/
theorem care_c3_witness :
    (BucketGood (RateLimiter.init 5 10 0) ∧
      validSeq (RateLimiter.init 5 10 0) ([RLOp.consume 0 1] ++ []) = true ∧
      BucketGood (RLrun (RateLimiter.init 5 10 0) [RLOp.consume 0 1])) ∧
    (((RateLimiter.init 5 0 0).consume 0 1).1 = false ∧
      ((RateLimiter.init 5 0 0).consume 0 1).2 = (RateLimiter.init 5 0 0).refill 0) := by
  have hb : BucketGood (RateLimiter.init 5 10 0) := by decide
  have hv : validSeq (RateLimiter.init 5 10 0) ([RLOp.consume 0 1] ++ []) = true := by decide
  have hf : ((RateLimiter.init 5 0 0).consume 0 1).1 = false := by
    simp only [RateLimiter.consume, RateLimiter.refill, RateLimiter.init]
    simp
    decide
  exact ⟨⟨hb, hv, care_c3_bucket_invariant.1 (RateLimiter.init 5 10 0) [RLOp.consume 0 1] [] hb hv⟩,
    hf, care_c3_bucket_invariant.2 (RateLimiter.init 5 0 0) 0 1 hf⟩

/-- C4: `wait_for_tokens(n)` refills, then consumes and returns `0`
when the refilled balance covers `n`; otherwise it returns exactly
`(n - tokens) / refill_rate` computed from the refilled balance and
leaves the bucket at `tokens = 0`.  Concretely, on a capacity-10
rate-5/s bucket, ten immediate `consume(1)` calls all succeed and an
immediately following `wait_for_tokens(1)` reports a `1/5 = 0.2` second
wait. -/
theorem care_c4_wait_for_tokens :
    (∀ (b : RateLimiter) (now n : ℚ),
      (n ≤ (b.refill now).tokens →
        b.waitForTokens now n
          = (0, { b.refill now with tokens := (b.refill now).tokens - n })) ∧
      (¬ n ≤ (b.refill now).tokens →
        (b.waitForTokens now n).1 = (n - (b.refill now).tokens) / b.refill_rate ∧
        (b.waitForTokens now n).2.tokens = 0)) ∧
    ((allConsume (RateLimiter.init 5 10 0) (List.replicate 10 (0, 1))).1 = true ∧
      ((allConsume (RateLimiter.init 5 10 0) (List.replicate 10 (0, 1))).2.waitForTokens 0 1).1
        = 1 / 5 ∧
      (1 : ℚ) / 5 = 0.2) := by
  constructor
  · intro b now n
    constructor
    · intro h
      simp only [RateLimiter.waitForTokens, if_pos h]
    · intro h
      constructor
      · simp [RateLimiter.waitForTokens, if_neg h]
      · simp [RateLimiter.waitForTokens, if_neg h]
  · refine ⟨?_, ?_, by norm_num⟩
    · norm_num [allConsume, RateLimiter.consume, RateLimiter.refill, RateLimiter.init,
        List.replicate, min_def]
    · norm_num [allConsume, RateLimiter.consume, RateLimiter.refill, RateLimiter.init,
        RateLimiter.waitForTokens, List.replicate, min_def]

/-- C4 witness: both hypotheses of the general part instantiated — a
full bucket covers a request of 1 (wait 0), an empty zero-capacity
bucket does not (bucket zeroed). -/
theorem care_c4_witness :
    ((1 : ℚ) ≤ ((RateLimiter.init 5 10 0).refill 0).tokens ∧
      (RateLimiter.init 5 10 0).waitForTokens 0 1
        = (0, { (RateLimiter.init 5 10 0).refill 0 with
                tokens := ((RateLimiter.init 5 10 0).refill 0).tokens - 1 })) ∧
    (¬ (1 : ℚ) ≤ ((RateLimiter.init 5 0 0).refill 0).tokens ∧
      ((RateLimiter.init 5 0 0).waitForTokens 0 1).2.tokens = 0) := by
  have h1 : (1 : ℚ) ≤ ((RateLimiter.init 5 10 0).refill 0).tokens := by
    simp [RateLimiter.refill, RateLimiter.init]
  have h2 : ¬ (1 : ℚ) ≤ ((RateLimiter.init 5 0 0).refill 0).tokens := by
    simp [RateLimiter.refill, RateLimiter.init]
  exact ⟨⟨h1, (care_c4_wait_for_tokens.1 (RateLimiter.init 5 10 0) 0 1).1 h1⟩,
    h2, ((care_c4_wait_for_tokens.1 (RateLimiter.init 5 0 0) 0 1).2 h2).2⟩

/-! ### Claim C5 -/

/-- C5 counterexample: the global-command check compares
`text_content.lower()` against `logout` without stripping, so in state
PATIENT_AUTH the input `" logout "` (surrounding whitespace) is not
handled as a logout: it is stripped by the patient-auth handler, passes
the length check, and is sent to the backend as a patient ID, leaving
the state at `patient_auth`. -/
theorem care_c5_no_trim_cex :
    (processMessage envFail patientAuthSession (.text " logout ")).2.1 ≠ .logoutConfirmation ∧
    (processMessage envFail patientAuthSession (.text " logout ")).1.current_state
      = "patient_auth" ∧
    (processMessage envFail patientAuthSession (.text " logout ")).2.2
      = [.authPatient "logout"] := by decide

/-- C5 amended: in every state, a text event whose content equals
`logout` after case-folding only (no trimming of surrounding
whitespace) is handled before state-specific dispatch: it
deauthenticates, clears the token, resets the state to `new` and
returns the fixed logout confirmation, with no backend call. -/
theorem care_c5_global_logout (env : BotEnv) (s : Session) (t : String)
    (h : pyLower t = "logout") :
    (processMessage env s (.text t)).1.is_authenticated = false ∧
    (processMessage env s (.text t)).1.auth_token = none ∧
    (processMessage env s (.text t)).1.current_state = "new" ∧
    (processMessage env s (.text t)).2.1 = .logoutConfirmation ∧
    (processMessage env s (.text t)).2.2 = [] := by
  have hb : (pyLower t == "logout") = true := by
    rw [h]
    decide
  simp [processMessage, processTextMessage, hb, handleLogout, logoutUser,
    getOrCreateSession, isSessionExpired, clearSession]

/-- C5 witness: `LogOut` from a fresh session is recognized in any
environment. -/
theorem care_c5_witness :
    pyLower "LogOut" = "logout" ∧
    (processMessage envOk (freshSession 0) (.text "LogOut")).2.1 = .logoutConfirmation :=
  ⟨by decide, (care_c5_global_logout envOk (freshSession 0) "LogOut" (by decide)).2.2.2.1⟩

/-! ### Claim C1 -/

/-- C1: the dispatcher recognizes state `user_type_selection`
(`SessionState.USER_TYPE_SELECTION` of `utils/constants.py`), and in
that state `patient` does move the session to `patient_auth` with the
patient-ID prompt; but `_handle_new_user` stores the literal
`choosing_user_type`, so after an unseen identity's first message the
follow-up `patient` never reaches that transition: it falls through to
the authenticated-user branch and replies that the session is not
recognized, leaving the state at `choosing_user_type`. -/
theorem care_c1_state_mismatch :
    (processMessage envOk (freshSession 0) (.text "hi")).1.current_state
      = "choosing_user_type" ∧
    "choosing_user_type" ≠ "user_type_selection" ∧
    (processMessage envOk (processMessage envOk (freshSession 0) (.text "hi")).1
      (.text "patient")).2.1 = .sessionNotRecognized ∧
    (processMessage envOk (processMessage envOk (freshSession 0) (.text "hi")).1
      (.text "patient")).1.current_state = "choosing_user_type" ∧
    (processMessage envOk { freshSession 0 with current_state := "user_type_selection" }
      (.text "patient")).2.1 = .patientIdPrompt ∧
    (processMessage envOk { freshSession 0 with current_state := "user_type_selection" }
      (.text "patient")).1.current_state = "patient_auth" := by decide

/-! ### Claim C10 -/

/-- Splitting at the first colon of `a ++ ':' :: b` with `a` colon-free
cuts exactly there. -/
theorem splitAtColon_app (a b : List Char) (h : noColon a = true) :
    splitAtColon (a ++ ':' :: b) = some (a, b) := by
  induction a with
  | nil => simp [splitAtColon]
  | cons c cs ih =>
    simp only [noColon, Bool.and_eq_true, Bool.not_eq_true'] at h
    have hc : ¬ c = ':' := by
      intro hc
      rw [hc] at h
      simp at h
    have ih2 : splitAtColon (List.append cs (':' :: b)) = some (cs, b) := ih h.2
    simp only [List.cons_append, splitAtColon, if_neg hc, ih h.2, ih2]

/-- A list of the shape `a ++ ':' :: b` contains a colon. -/
theorem contains_colon_app (a b : List Char) :
    (a ++ ':' :: b).contains ':' = true := by
  induction a with
  | nil => simp [List.contains]
  | cons c cs ih => simp [List.contains] at ih ⊢

/-- C10: in STAFF_AUTH the credential string is split at the first
colon only: for an input `id ++ ":" ++ rest` with `id` colon-free (and
the surrounding-whitespace, length-8 and password-length-6 checks
passing), the backend `authenticate_staff` call receives `id` as the
staff ID and the entire remainder `rest` — further colons included — as
the password. -/
theorem care_c10_staff_split_first_colon (env : BotEnv) (s : Session) (id rest : String)
    (hid : noColon id.data = true)
    (hidne : id ≠ "")
    (hrest : 6 ≤ rest.length)
    (hstrip : pyStrip (id ++ ":" ++ rest) = id ++ ":" ++ rest) :
    (handleStaffAuthentication env s (id ++ ":" ++ rest)).2.2
      = [.authStaff id rest] := by
  have hdata : (id ++ ":" ++ rest).data = id.data ++ ':' :: rest.data := by
    simp [String.data_append]
  have hcol : pyContainsChar (id ++ ":" ++ rest) ':' = true := by
    rw [pyContainsChar, hdata]
    exact contains_colon_app id.data rest.data
  have hsplit : pySplitColonOnce (id ++ ":" ++ rest) = some (id, rest) := by
    rw [pySplitColonOnce, hdata, splitAtColon_app id.data rest.data hid]
    rfl
  have hpos : 0 < id.length := by
    rcases id with ⟨l⟩
    cases l with
    | nil => exact absurd rfl hidne
    | cons c cs => simp [String.length]
  have hlen8 : ¬ (id ++ ":" ++ rest).length < 8 := by
    rw [String.length_append, String.length_append]
    have h1 : (":" : String).length = 1 := rfl
    omega
  have hidne2 : (id == "") = false := by
    simp [hidne]
  have hrestne : (rest == "") = false := by
    have : rest ≠ "" := by
      intro hr
      rw [hr] at hrest
      simp [String.length] at hrest
    simp [this]
  have hplen : ¬ rest.length < 6 := by omega
  simp only [handleStaffAuthentication, hcol, hstrip, hsplit, hidne2, hrestne,
    Bool.not_true, decide_eq_false hlen8, decide_eq_false hplen, Bool.or_self,
    Bool.false_or, Bool.or_false, if_false, Bool.false_eq_true, ite_false]
  cases henv : env.authStaff id rest with
  | error e => rfl
  | ok r =>
    cases hr : r.authenticated <;> simp [hr]

/-- C10 witness: `STAFF1:pa:ss:wd` reaches the backend as
`("STAFF1", "pa:ss:wd")`. -/
theorem care_c10_witness :
    noColon ("STAFF1" : String).data = true ∧
    (handleStaffAuthentication envOk staffSession ("STAFF1" ++ ":" ++ "pa:ss:wd")).2.2
      = [.authStaff "STAFF1" "pa:ss:wd"] :=
  ⟨by decide,
    care_c10_staff_split_first_colon envOk staffSession "STAFF1" "pa:ss:wd"
      (by decide) (by decide) (by decide) (by decide)⟩

/-! ### Claim C9 -/

/-- C9 counterexample: in STAFF_MENU, `notify` alone is answered with
the command-not-recognized reply (not the notify usage error), and
`notify P123456` with no message text is not rejected: the backend
notification call is made with an empty message. -/
theorem care_c9_notify_cex :
    (processMessage envOk staffSession (.text "notify")).2.1 = .commandNotRecognized ∧
    (processMessage envOk staffSession (.text "notify")).2.1 ≠ .notifyUsageError ∧
    (processMessage envOk staffSession (.text "notify")).2.2 = [] ∧
    (processMessage envOk staffSession (.text "notify P123456")).2.2
      = [.notifyPatient "P123456" "" "TOK"] ∧
    (processMessage envOk staffSession (.text "notify P123456")).2.1
      ≠ .notifyUsageError := by decide

/-- A lowercased `notify …` input never matches the `search ` branch. -/
theorem c9_search_false (x : String) :
    pyStartsWith (pyLower ("notify " ++ x)) "search " = false := rfl

/-- A lowercased `notify …` input always takes the `notify ` branch. -/
theorem c9_notify_true (x : String) :
    pyStartsWith (pyLower ("notify " ++ x)) "notify " = true := rfl

/-- C9 amended: in STAFF_MENU (staff id and token present), `notify`
alone falls through to the command-not-recognized reply with no backend
call; `notify <pid>` with no message text (pid a single
whitespace-free token, input already stripped) is not rejected: the
backend notification call is made with the empty message, and the
session is unchanged either way. -/
theorem care_c9_notify_behavior (env : BotEnv) (s : Session) (sid tok pid : String)
    (hg : getOrCreateSession env s = s)
    (hsid : lookupKey s.session_data "user_id" = some sid) (hsidne : sid ≠ "")
    (htok : s.auth_token = some tok) (htokne : tok ≠ "")
    (hstrip : pyStrip ("notify " ++ pid) = "notify " ++ pid)
    (hsplit : pySplitWs ("notify " ++ pid) = ["notify", pid]) :
    handleStaffCommands env s "notify" = (s, .commandNotRecognized, []) ∧
    (handleStaffCommands env s ("notify " ++ pid)).2.2 = [.notifyPatient pid "" tok] ∧
    (handleStaffCommands env s ("notify " ++ pid)).1 = s := by
  have hs1 : (sid == "") = false := by simp [hsidne]
  have ht1 : (tok == "") = false := by simp [htokne]
  refine ⟨?_, ?_⟩
  · have e1 : pyStrip ("notify" : String) = "notify" := rfl
    have e2 : pyStartsWith (pyLower "notify") "search " = false := rfl
    have e3 : pyStartsWith (pyLower "notify") "notify " = false := rfl
    have e4 : (pyLower "notify" == "patients") = false := rfl
    have e5 : (pyLower "notify" == "help") = false := rfl
    have e6 : (pyLower "notify" == "logout") = false := rfl
    simp [handleStaffCommands, e1, e2, e3, e4, e5, e6, hg, hsid, htok, hs1, ht1]
  · simp only [handleStaffCommands, hstrip, hg, hsid, htok, Option.getD_some,
      hs1, ht1, c9_search_false, c9_notify_true, hsplit, pyJoinSpace,
      Bool.or_self, Bool.or_false, Bool.false_or, Bool.false_eq_true, if_false,
      eq_self_iff_true, if_true, ite_true, ite_false]
    cases henv : env.notifyPatient pid "" tok with
    | error e => exact ⟨rfl, rfl⟩
    | ok r =>
      rcases r with ⟨suc, err⟩
      cases suc <;> exact ⟨rfl, rfl⟩

/-- C9 witness: the amended behavior at `notify P123456` for the staff
session, with the backend up. -/
theorem care_c9_witness :
    getOrCreateSession envOk staffSession = staffSession ∧
    pySplitWs ("notify " ++ "P123456") = ["notify", "P123456"] ∧
    (handleStaffCommands envOk staffSession ("notify " ++ "P123456")).2.2
      = [.notifyPatient "P123456" "" "TOK"] :=
  ⟨by decide, by decide,
    (care_c9_notify_behavior envOk staffSession "S1" "TOK" "P123456"
      (by decide) (by decide) (by decide) (by decide) (by decide)
      (by decide) (by decide)).2.1⟩

/-! ### Claim C2 -/

/-- The user-type-selection handler performs no backend call. -/
theorem utsel_nocalls (env : BotEnv) (s : Session) (t : String) :
    (handleUserTypeSelection env s t).2.2 = [] := by
  simp only [handleUserTypeSelection]
  split_ifs <;> rfl

/-- The patient command handler on `help` performs no backend call. -/
theorem pcmds_help_nocalls (env : BotEnv) (s : Session) :
    (handlePatientCommands env s "help").2.2 = [] := by
  simp only [handlePatientCommands]
  split
  · rfl
  · rfl

/-- The staff command handler on `help` performs no backend call. -/
theorem scmds_help_nocalls (env : BotEnv) (s : Session) :
    (handleStaffCommands env s "help").2.2 = [] := by
  simp only [handleStaffCommands]
  split
  · rfl
  · rfl

/-- The contextual help reply performs no backend call. -/
theorem getHelp_nocalls (env : BotEnv) (s : Session) :
    (getHelpMessage env s).2.2 = [] := by
  simp only [getHelpMessage]
  split_ifs
  · exact utsel_nocalls env s "help"
  · exact pcmds_help_nocalls env s
  · exact scmds_help_nocalls env s
  · rfl

/-- Button interactions perform no backend call. -/
theorem btn_nocalls (env : BotEnv) (s : Session) (id : String) :
    (handleButtonInteraction env s id).2.2 = [] := by
  simp only [handleButtonInteraction]
  split_ifs
  · exact utsel_nocalls env s "patient"
  · exact utsel_nocalls env s "staff"
  · exact utsel_nocalls env s "help"
  · rfl

/-- Patient authentication under a failing backend: no session change,
retry-later reply. -/
theorem pauth_failsafe (env : BotEnv) (s : Session) (t : String)
    (hAP : ∀ x, env.authPatient x = .error ()) :
    FailSafe s (handlePatientAuthentication env s t) := by
  unfold FailSafe
  simp only [handlePatientAuthentication, hAP]
  split_ifs <;> intro h
  · exact absurd rfl h
  · exact ⟨rfl, Or.inl rfl⟩

/-- Staff authentication under a failing backend: no session change,
retry-later reply. -/
theorem sauth_failsafe (env : BotEnv) (s : Session) (t : String)
    (hAS : ∀ x y, env.authStaff x y = .error ()) :
    FailSafe s (handleStaffAuthentication env s t) := by
  unfold FailSafe
  simp only [handleStaffAuthentication, hAS]
  split_ifs
  · intro h
    exact absurd rfl h
  · split
    · intro h
      exact absurd rfl h
    · split_ifs
      · intro h
        exact absurd rfl h
      · intro h
        exact ⟨rfl, Or.inl rfl⟩

/-- Patient menu commands under a failing backend: no session change,
retry-later reply whenever a backend call was made. -/
theorem pcmds_failsafe (env : BotEnv) (s : Session) (t : String)
    (hg : getOrCreateSession env s = s)
    (hGR : ∀ x y, env.getRecords x y = .error ())
    (hGM : ∀ x y, env.getMedications x y = .error ())
    (hGP : ∀ x y, env.getProcedures x y = .error ())
    (hGA : ∀ x y, env.getAppointments x y = .error ()) :
    FailSafe s (handlePatientCommands env s t) := by
  unfold FailSafe
  simp only [handlePatientCommands, hg, hGR, hGM, hGP, hGA]
  split_ifs <;> intro h
  all_goals
    first
      | exact absurd rfl h
      | exact ⟨rfl, Or.inr (Or.inl rfl)⟩

/-- Staff menu commands under a failing backend: no session change; the
reply is retry-later except for `notify …`, whose bare exception
handler returns the usage-error reply. -/
theorem scmds_failsafe (env : BotEnv) (s : Session) (t : String)
    (hg : getOrCreateSession env s = s)
    (hSP : ∀ x y, env.searchPatient x y = .error ())
    (hNP : ∀ x y z, env.notifyPatient x y z = .error ())
    (hRP : ∀ x, env.getRecentPatients x = .error ()) :
    FailSafe s (handleStaffCommands env s t) := by
  unfold FailSafe
  simp only [handleStaffCommands, hg, hSP, hNP, hRP]
  split_ifs <;> intro h
  all_goals
    first
      | exact absurd rfl h
      | exact ⟨rfl, Or.inr (Or.inl rfl)⟩
      | skip
  split at h
  · exact ⟨rfl, Or.inr (Or.inr rfl)⟩
  · exact absurd rfl h

/-- Authenticated-user dispatch under a failing backend. -/
theorem hauthu_failsafe (env : BotEnv) (s : Session) (t : String)
    (hg : getOrCreateSession env s = s)
    (hGR : ∀ x y, env.getRecords x y = .error ())
    (hGM : ∀ x y, env.getMedications x y = .error ())
    (hGP : ∀ x y, env.getProcedures x y = .error ())
    (hGA : ∀ x y, env.getAppointments x y = .error ())
    (hSP : ∀ x y, env.searchPatient x y = .error ())
    (hNP : ∀ x y z, env.notifyPatient x y z = .error ())
    (hRP : ∀ x, env.getRecentPatients x = .error ()) :
    FailSafe s (handleAuthenticatedUser env s t) := by
  simp only [handleAuthenticatedUser, hg]
  split_ifs
  · exact pcmds_failsafe env s t hg hGR hGM hGP hGA
  · exact scmds_failsafe env s t hg hSP hNP hRP
  · intro h
    exact absurd rfl h

/-- List interactions under a failing backend. -/
theorem list_failsafe (env : BotEnv) (s : Session) (id : String)
    (hg : getOrCreateSession env s = s)
    (hGR : ∀ x y, env.getRecords x y = .error ())
    (hGM : ∀ x y, env.getMedications x y = .error ())
    (hGP : ∀ x y, env.getProcedures x y = .error ())
    (hGA : ∀ x y, env.getAppointments x y = .error ()) :
    FailSafe s (handleListInteraction env s id) := by
  unfold FailSafe
  simp only [handleListInteraction, hg, hGR, hGM, hGP, hGA]
  split_ifs <;> intro h
  all_goals
    first
      | exact absurd rfl h
      | exact absurd (getHelp_nocalls env s) h
      | exact ⟨rfl, Or.inr (Or.inl rfl)⟩

/-- One text event under a failing backend, on a read-stable session. -/
theorem ptm_failsafe (env : BotEnv) (s : Session) (t : String)
    (hg : getOrCreateSession env s = s)
    (hAP : ∀ x, env.authPatient x = .error ())
    (hAS : ∀ x y, env.authStaff x y = .error ())
    (hGR : ∀ x y, env.getRecords x y = .error ())
    (hGM : ∀ x y, env.getMedications x y = .error ())
    (hGP : ∀ x y, env.getProcedures x y = .error ())
    (hGA : ∀ x y, env.getAppointments x y = .error ())
    (hSP : ∀ x y, env.searchPatient x y = .error ())
    (hNP : ∀ x y z, env.notifyPatient x y z = .error ())
    (hRP : ∀ x, env.getRecentPatients x = .error ()) :
    FailSafe s (processTextMessage env s t) := by
  simp only [processTextMessage, hg]
  split_ifs
  · intro h
    exact absurd rfl h
  · intro h
    exact absurd (getHelp_nocalls env s) h
  · intro h
    exact absurd rfl h
  · intro h
    exact absurd rfl h
  · exact fun h => absurd (utsel_nocalls env s t) h
  · exact pauth_failsafe env s t hAP
  · exact sauth_failsafe env s t hAS
  · exact hauthu_failsafe env s t hg hGR hGM hGP hGA hSP hNP hRP

/-- A text event on a just-reset session makes no backend call. -/
theorem ptm_cleared_nocalls (env : BotEnv) (s : Session) (t : String) :
    (processTextMessage env (clearSession env s) t).2.2 = [] := by
  simp only [processTextMessage, gc_clear]
  split_ifs with h1 h2 h3 h4 h5 h6 h7
  · rfl
  · exact getHelp_nocalls env (clearSession env s)
  · rfl
  · rfl
  all_goals exact absurd rfl h4

/-- A list interaction on a just-reset session makes no backend call. -/
theorem list_cleared_nocalls (env : BotEnv) (s : Session) (id : String) :
    (handleListInteraction env (clearSession env s) id).2.2 = [] := by
  simp only [handleListInteraction, gc_clear]
  split_ifs with h1 h2 h3 h4 h5 h6
  · rfl
  all_goals exact absurd rfl h1

/-- C2 amended: for every inbound event, if every backend call raises,
the engine still returns a reply (it is a total function into
`BotResult`), and whenever the processing performed at least one
backend call the stored session is completely unchanged and the reply
is a caught-failure reply — the generic retry-later message in the
authentication and fetch paths, except the staff `notify` command whose
bare exception handler yields the notify usage-error reply. -/
theorem care_c2_backend_failure_safe (env : BotEnv) (s : Session) (ev : InEvent)
    (hAP : ∀ x, env.authPatient x = .error ())
    (hAS : ∀ x y, env.authStaff x y = .error ())
    (hGR : ∀ x y, env.getRecords x y = .error ())
    (hGM : ∀ x y, env.getMedications x y = .error ())
    (hGP : ∀ x y, env.getProcedures x y = .error ())
    (hGA : ∀ x y, env.getAppointments x y = .error ())
    (hSP : ∀ x y, env.searchPatient x y = .error ())
    (hNP : ∀ x y z, env.notifyPatient x y z = .error ())
    (hRP : ∀ x, env.getRecentPatients x = .error ())
    (hcall : (processMessage env s ev).2.2 ≠ []) :
    (processMessage env s ev).1 = s ∧
      ((processMessage env s ev).2.1 = .authServiceUnavailable ∨
        (processMessage env s ev).2.1 = .processingError ∨
        (processMessage env s ev).2.1 = .notifyUsageError) := by
  rcases gc_cases env s with hg | hg
  · cases ev with
    | text body =>
      have hfs := ptm_failsafe env s body hg hAP hAS hGR hGM hGP hGA hSP hNP hRP
      simp only [processMessage, hg] at hcall ⊢
      obtain ⟨e1, e2⟩ := hfs hcall
      rw [e1]
      exact ⟨hg, e2⟩
    | interactiveButtonReply id =>
      simp only [processMessage, hg] at hcall
      exact absurd (btn_nocalls env s id) hcall
    | interactiveListReply id =>
      have hfs := list_failsafe env s id hg hGR hGM hGP hGA
      simp only [processMessage, hg] at hcall ⊢
      obtain ⟨e1, e2⟩ := hfs hcall
      rw [e1]
      exact ⟨hg, e2⟩
    | interactiveOther =>
      simp only [processMessage, hg] at hcall
      exact absurd rfl hcall
    | buttonMsg tb =>
      have hfs := ptm_failsafe env s tb hg hAP hAS hGR hGM hGP hGA hSP hNP hRP
      simp only [processMessage, hg] at hcall ⊢
      obtain ⟨e1, e2⟩ := hfs hcall
      rw [e1]
      exact ⟨hg, e2⟩
    | otherType =>
      simp only [processMessage, hg] at hcall
      exact absurd rfl hcall
  · cases ev with
    | text body =>
      simp only [processMessage, hg] at hcall
      exact absurd (ptm_cleared_nocalls env s body) hcall
    | interactiveButtonReply id =>
      simp only [processMessage, hg] at hcall
      exact absurd (btn_nocalls env (clearSession env s) id) hcall
    | interactiveListReply id =>
      simp only [processMessage, hg] at hcall
      exact absurd (list_cleared_nocalls env s id) hcall
    | interactiveOther =>
      simp only [processMessage, hg] at hcall
      exact absurd rfl hcall
    | buttonMsg tb =>
      simp only [processMessage, hg] at hcall
      exact absurd (ptm_cleared_nocalls env s tb) hcall
    | otherType =>
      simp only [processMessage, hg] at hcall
      exact absurd rfl hcall

/-- C2 counterexample: the reply is not always the generic retry-later
message — a staff `notify` event whose backend call raises is answered
with the notify usage-error reply (the bare `except:` in
`_handle_staff_commands` swallows the backend exception), though the
session is indeed unchanged and no exception escapes. -/
theorem care_c2_notify_reply_cex :
    (processMessage envFail staffSession (.text "notify P1 hello")).2.2 ≠ [] ∧
    (processMessage envFail staffSession (.text "notify P1 hello")).2.1
      = .notifyUsageError ∧
    (processMessage envFail staffSession (.text "notify P1 hello")).2.1
      ≠ .authServiceUnavailable ∧
    (processMessage envFail staffSession (.text "notify P1 hello")).2.1
      ≠ .processingError ∧
    (processMessage envFail staffSession (.text "notify P1 hello")).1
      = staffSession := by decide

/-- C2 witness: a patient-authentication attempt against the failing
backend makes a call, leaves the session unchanged and yields a caught
reply. -/
theorem care_c2_witness :
    (processMessage envFail patientAuthSession (.text "P12345")).2.2 ≠ [] ∧
    ((processMessage envFail patientAuthSession (.text "P12345")).1
        = patientAuthSession ∧
      ((processMessage envFail patientAuthSession (.text "P12345")).2.1
          = .authServiceUnavailable ∨
        (processMessage envFail patientAuthSession (.text "P12345")).2.1
          = .processingError ∨
        (processMessage envFail patientAuthSession (.text "P12345")).2.1
          = .notifyUsageError)) :=
  ⟨by decide,
    care_c2_backend_failure_safe envFail patientAuthSession (.text "P12345")
      (fun _ => rfl) (fun _ _ => rfl) (fun _ _ => rfl) (fun _ _ => rfl)
      (fun _ _ => rfl) (fun _ _ => rfl) (fun _ _ => rfl) (fun _ _ _ => rfl)
      (fun _ => rfl) (by decide)⟩
